import Mathlib

/-!
Verification of the discretized punching-shear analysis engine of
`wthisj` (`wthisj/punchingshearsection.py`), as a shallow embedding over
exact rational arithmetic.  The dict of parallel lists `self.perimeter`
becomes a structure of `List ℚ` columns; float arithmetic is idealized as
exact `ℚ` arithmetic; the transcendental library calls (`math.sqrt`,
`math.atan2`, `cos`/`sin` of the principal rotation) are irrational in
general and are therefore supplied as explicit model functions, with the
theorems either holding for every model or evaluated at inputs where the
true values are rational (for example `sqrt 1 = 1`, or sections already in
principal orientation where the rotation branch is dead).
-/

namespace Wthisj

/-- Support condition tag: the nine compass values accepted by the
`PunchingShearSection` constructor. -/
inductive Condition
  | N | S | W | E | I | NW | NE | SW | SE
deriving DecidableEq, Inhabited

/-- Model of the dict of parallel lists `self.perimeter`: one entry per
discretized patch.  The first nine columns are geometry, filled by
`add_perimeter`; the remaining seven are the per-patch result columns that
`solve` appends to. -/
structure Perimeter where
  x_centroid : List ℚ
  y_centroid : List ℚ
  x_start : List ℚ
  y_start : List ℚ
  x_end : List ℚ
  y_end : List ℚ
  depth : List ℚ
  length : List ℚ
  area : List ℚ
  v_axial : List ℚ
  v_Mx : List ℚ
  v_My : List ℚ
  v_total : List ℚ
  Fz : List ℚ
  Mxi : List ℚ
  Myi : List ℚ
deriving DecidableEq, Inhabited

/-- State of `self.perimeter` right after `__init__` builds the empty dict. -/
def Perimeter.empty : Perimeter :=
  ⟨[], [], [], [], [], [], [], [], [], [], [], [], [], [], [], []⟩

/-- Translation of `PunchingShearSection.add_perimeter`.  The source computes
the segment length as `np.linalg.norm(end - start)`; square roots are not in
general rational, so the Euclidean length is taken here as the explicit
argument `len`, which callers must instantiate with the norm of
`(ex - sx, ey - sy)`.  Every call made by `auto_generate_perimeters` is
axis-aligned, where that norm equals `|ex - sx| + |ey - sy|` exactly because
one of the two differences is zero.  `np.linspace 0 1 (segments+1)` yields
the exact nodes `i / segments`. -/
def addPerimeter (per : Perimeter) (sx sy ex ey len depth PATCH_SIZE : ℚ) : Perimeter :=
  let px := ex - sx
  let py := ey - sy
  -- segments = int(length_line // PATCH_SIZE) if length_line > PATCH_SIZE else 1
  let segments : ℕ := if PATCH_SIZE < len then (⌊len / PATCH_SIZE⌋).toNat else 1
  let length_segments := len / (segments : ℚ)
  let xend : ℕ → ℚ := fun i => sx + ((i : ℚ) / (segments : ℚ)) * px
  let yend : ℕ → ℚ := fun i => sy + ((i : ℚ) / (segments : ℚ)) * py
  let x_ends := (List.range (segments + 1)).map xend
  let y_ends := (List.range (segments + 1)).map yend
  let x_center := (List.range segments).map (fun i => (xend i + xend (i + 1)) / 2)
  let y_center := (List.range segments).map (fun i => (yend i + yend (i + 1)) / 2)
  { per with
    x_centroid := per.x_centroid ++ x_center
    y_centroid := per.y_centroid ++ y_center
    x_start := per.x_start ++ x_ends.dropLast
    y_start := per.y_start ++ y_ends.dropLast
    x_end := per.x_end ++ x_ends.tail
    y_end := per.y_end ++ y_ends.tail
    length := per.length ++ List.replicate segments length_segments
    depth := per.depth ++ List.replicate segments depth
    area := per.area ++ List.replicate segments (depth * length_segments) }

/-- Perimeter points of the auto-generated interior condition ("I" branch of
`auto_generate_perimeters`, no studrail) followed by the `add_perimeter` loop
over consecutive point pairs.  All four segments are axis-aligned, so the
`np.linalg.norm` length is exactly `|Δx| + |Δy|`. -/
def autoGeneratePerimetersI (b h d ps : ℚ) : Perimeter :=
  let pts : List (ℚ × ℚ) :=
    [(-b/2 - d/2, -h/2 - d/2), (b/2 + d/2, -h/2 - d/2), (b/2 + d/2, h/2 + d/2),
     (-b/2 - d/2, h/2 + d/2), (-b/2 - d/2, -h/2 - d/2)]
  (pts.zip pts.tail).foldl
    (fun per pq =>
      addPerimeter per pq.1.1 pq.1.2 pq.2.1 pq.2.2
        (|pq.2.1 - pq.1.1| + |pq.2.2 - pq.1.2|) d ps)
    Perimeter.empty

/-- State of a `PunchingShearSection` object: the perimeter columns plus the
constructor fields and auxiliary plotting geometry consumed by the analysis
methods.  Derived geometric properties are recomputed on demand by
`updateProperties` rather than cached. -/
structure PunchingShearSection where
  perimeter : Perimeter
  generate_perimeter : Bool
  has_studrail : Bool
  condition : Condition
  slab_depth : ℚ
  openings : List (List (ℚ × ℚ))
  openings_draw_pts : List (List (ℚ × ℚ))
  studrail_pts : List (List (ℚ × ℚ))
  col_pts : List (ℚ × ℚ)
  slabedge_pts : List (ℚ × ℚ)
  slabedge_lines : List (List (ℚ × ℚ))
deriving DecidableEq, Inhabited

/-- Constructor for an interior column without studrails and with
auto-generated perimeter (`condition="I"`, `studrail_length=0`,
`auto_generate_perimeter=True`): no slab-edge or studrail plotting geometry
is produced in this branch. -/
def mkAutoI (b h d ps : ℚ) : PunchingShearSection :=
  { perimeter := autoGeneratePerimetersI b h d ps
    generate_perimeter := true
    has_studrail := false
    condition := .I
    slab_depth := d
    openings := []
    openings_draw_pts := []
    studrail_pts := []
    col_pts := [(-b/2, -h/2), (b/2, -h/2), (b/2, h/2), (-b/2, h/2)]
    slabedge_pts := []
    slabedge_lines := [] }

/-- Python `max` over a nonempty list, seeded with the head (Python raises on
an empty list; callers in scope only pass nonempty lists and the empty case
here returns 0). -/
def pyMax : List ℚ → ℚ
  | [] => 0
  | x :: xs => xs.foldl max x

/-- Python `min` over a nonempty list (see `pyMax`). -/
def pyMin : List ℚ → ℚ
  | [] => 0
  | x :: xs => xs.foldl min x

/-- Python `max(lst, key=abs)`: the first element of maximal absolute value
(a later element replaces the accumulator only when strictly larger). -/
def maxByAbs : List ℚ → ℚ
  | [] => 0
  | x :: xs => xs.foldl (fun acc v => if |acc| < |v| then v else acc) x

/-- Python `math.isclose a b rel_tol abs_tol`, i.e.
`|a - b| ≤ max (rel_tol * max |a| |b|) abs_tol`.  The source calls it with the
default `rel_tol = 1e-9` and explicit `abs_tol`. -/
def isclose (a b rel_tol abs_tol : ℚ) : Bool :=
  decide (|a - b| ≤ max (rel_tol * max |a| |b|) abs_tol)

/-- Symbolic value of `theta_p` in degrees.  `atanCase arg` stands for the in
general irrational value `atan arg / 2 * 180 / π`; it is kept symbolic
because only its branch identity and its comparison against `0.1` are
consumed downstream, and the latter is supplied by the solver's model
(`TransModel.rotGT`). -/
inductive ThetaP
  | zero
  | fortyFive
  | atanCase (arg : ℚ)
deriving DecidableEq, Inhabited

/-- Principal-orientation angle selection: the trailing branch of
`update_properties` (tolerances: Python `isclose` with `rel_tol = 1e-9`,
`abs_tol = 1e-6`). -/
def thetaPOf (Ix Iy Ixy : ℚ) : ThetaP :=
  if isclose Ixy 0 (1/1000000000) (1/1000000) then .zero
  else if isclose Ix Iy (1/1000000000) (1/1000000) then .fortyFive
  else .atanCase (Ixy / ((Ix - Iy) / 2))

/-- Derived geometric properties computed by `update_properties`. -/
structure Props where
  L : ℚ
  A : ℚ
  x_centroid : ℚ
  y_centroid : ℚ
  Ix : ℚ
  Iy : ℚ
  Ixy : ℚ
  Iz : ℚ
  Sx1 : ℚ
  Sx2 : ℚ
  Sy1 : ℚ
  Sy2 : ℚ
  theta_p : ThetaP
deriving DecidableEq

/-- Translation of `update_properties` (exact rational arithmetic; note that
`x / 0 = 0` in `ℚ` where Python would raise `ZeroDivisionError` — the guard
`updateSafe` below characterizes the inputs on which the source completes). -/
def updateProperties (per : Perimeter) : Props :=
  let L := per.length.sum
  let xA := ((per.x_centroid.zip per.area).map (fun p => p.1 * p.2)).sum
  let yA := ((per.y_centroid.zip per.area).map (fun p => p.1 * p.2)).sum
  let A := per.area.sum
  let xc := xA / A
  let yc := yA / A
  let Ix := ((per.y_centroid.zip per.area).map (fun p => p.2 * (p.1 - yc) ^ 2)).sum
  let Iy := ((per.x_centroid.zip per.area).map (fun p => p.2 * (p.1 - xc) ^ 2)).sum
  let Ixy := (((per.x_centroid.zip per.y_centroid).zip per.area).map
      (fun p => p.2 * (p.1.2 - yc) * (p.1.1 - xc))).sum
  let all_x := per.x_centroid ++ per.x_start ++ per.x_end
  let all_y := per.y_centroid ++ per.y_start ++ per.y_end
  { L := L, A := A, x_centroid := xc, y_centroid := yc
    Ix := Ix, Iy := Iy, Ixy := Ixy, Iz := Ix + Iy
    Sx1 := Ix / |pyMax all_y - yc|, Sx2 := Ix / |pyMin all_y - yc|
    Sy1 := Iy / |pyMax all_x - xc|, Sy2 := Iy / |pyMin all_x - xc|
    theta_p := thetaPOf Ix Iy Ixy }

/-- Guard under which the source's `update_properties` completes: Python
raises on `max`/`min` of an empty list and on the divisions whose
denominators the total `ℚ` division silently sends to zero. -/
def updateSafe (per : Perimeter) : Prop :=
  per.x_centroid ≠ [] ∧ per.y_centroid ≠ [] ∧ per.area.sum ≠ 0 ∧
  pyMax (per.y_centroid ++ per.y_start ++ per.y_end) ≠
    ((per.y_centroid.zip per.area).map (fun p => p.1 * p.2)).sum / per.area.sum ∧
  pyMin (per.y_centroid ++ per.y_start ++ per.y_end) ≠
    ((per.y_centroid.zip per.area).map (fun p => p.1 * p.2)).sum / per.area.sum ∧
  pyMax (per.x_centroid ++ per.x_start ++ per.x_end) ≠
    ((per.x_centroid.zip per.area).map (fun p => p.1 * p.2)).sum / per.area.sum ∧
  pyMin (per.x_centroid ++ per.x_start ++ per.x_end) ≠
    ((per.x_centroid.zip per.area).map (fun p => p.1 * p.2)).sum / per.area.sum

instance (per : Perimeter) : Decidable (updateSafe per) := by
  unfold updateSafe; infer_instance

/-- Rotation of the parallel coordinate lists by the matrix
`[[c, -s], [s, c]]`, with `c = cos θ` and `s = sin θ` for `θ = angle·π/180`;
the matrix entries are taken as arguments because cosines of arbitrary angles
are not rational.  Lengths, depths, areas and any already-stored result
columns are untouched, exactly as in the source. -/
def Perimeter.rotate (per : Perimeter) (c s : ℚ) : Perimeter :=
  let cen := per.x_centroid.zip per.y_centroid
  let st := per.x_start.zip per.y_start
  let en := per.x_end.zip per.y_end
  { per with
    x_centroid := cen.map (fun p => c * p.1 - s * p.2)
    y_centroid := cen.map (fun p => s * p.1 + c * p.2)
    x_start := st.map (fun p => c * p.1 - s * p.2)
    y_start := st.map (fun p => s * p.1 + c * p.2)
    x_end := en.map (fun p => c * p.1 - s * p.2)
    y_end := en.map (fun p => s * p.1 + c * p.2) }

/-- Rotation of a single auxiliary point by the same matrix. -/
def rotPt (c s : ℚ) (p : ℚ × ℚ) : ℚ × ℚ := (c * p.1 - s * p.2, s * p.1 + c * p.2)

/-- Translation of `PunchingShearSection.rotate`: every coordinate owned by
the section — patch columns, openings, opening draw points, studrails, column
corners, slab-edge points and lines — is transformed by the same rotation
matrix.  The trailing `update_properties()` call of the source has no
counterpart because derived properties are recomputed on demand. -/
def PunchingShearSection.rotate (S : PunchingShearSection) (c s : ℚ) : PunchingShearSection :=
  { S with
    perimeter := S.perimeter.rotate c s
    openings := S.openings.map (fun o => o.map (rotPt c s))
    openings_draw_pts := S.openings_draw_pts.map (fun o => o.map (rotPt c s))
    studrail_pts := S.studrail_pts.map (fun o => o.map (rotPt c s))
    col_pts := S.col_pts.map (rotPt c s)
    slabedge_pts := S.slabedge_pts.map (rotPt c s)
    slabedge_lines := S.slabedge_lines.map (fun o => o.map (rotPt c s)) }

/-- Corner points of an opening as built by `add_opening` from the bottom-left
corner and the two dimensions. -/
def openingPts (xo yo width depth : ℚ) : List (ℚ × ℚ) :=
  [(xo, yo), (xo + width, yo), (xo + width, yo + depth), (xo, yo + depth)]

/-- Index predicate of `add_opening`'s deletion loop: patch `i`'s centroid
angle (computed by the supplied `atan2` model about the fixed origin, the
column centroid at `(0,0)`) lies strictly inside `(theta_min, theta_max)`. -/
def shadowBad (per : Perimeter) (theta_min theta_max : ℚ) (atan2Q : ℚ → ℚ → ℚ) (i : ℕ) : Bool :=
  let th := atan2Q (per.y_centroid.getD i 0) (per.x_centroid.getD i 0)
  decide (theta_min < th) && decide (th < theta_max)

/-- Entries of `l` that survive `add_opening`'s deletion: those whose index
does not satisfy `shadowBad`. -/
def keepOutsideShadow (per : Perimeter) (theta_min theta_max : ℚ)
    (atan2Q : ℚ → ℚ → ℚ) (l : List ℚ) : List ℚ :=
  (l.enum.filter (fun q => ! shadowBad per theta_min theta_max atan2Q q.1)).map Prod.snd

/-- Translation of `add_opening`.  `atan2Q` models `math.atan2` and `sqrtQ`
models `math.sqrt` (both irrational in general; the theorem below holds for
every model).  The returned flag is the console advisory printed when the
opening is farther than `4h` from the perimeter; it affects nothing else. -/
def addOpening (S : PunchingShearSection) (xo yo width depth : ℚ)
    (atan2Q : ℚ → ℚ → ℚ) (sqrtQ : ℚ → ℚ) : PunchingShearSection × Bool :=
  let opening_pts := openingPts xo yo width depth
  -- closest of the four corners to the column centroid at (0, 0)
  let dists := opening_pts.map (fun p => sqrtQ (p.1 ^ 2 + p.2 ^ 2))
  let pt2 := opening_pts.getD (dists.indexOf (pyMin dists)) (0, 0)
  -- minimum distance from that corner to any patch centroid; warn beyond 4h
  let h := S.slab_depth + 2
  let cen := S.perimeter.x_centroid.zip S.perimeter.y_centroid
  let min_length := pyMin (cen.map (fun p => sqrtQ ((p.1 - pt2.1) ^ 2 + (p.2 - pt2.2) ^ 2)))
  let warned := decide (4 * h < min_length)
  -- angular shadow of the four corners about (0, 0)
  let thetas := opening_pts.map (fun p => atan2Q p.2 p.1)
  let theta_min := pyMin thetas
  let theta_max := pyMax thetas
  let draw := [opening_pts.getD (thetas.indexOf theta_min) (0, 0),
               opening_pts.getD (thetas.indexOf theta_max) (0, 0)]
  -- delete the patches strictly inside the shadow, largest index first
  let n := S.perimeter.x_centroid.length
  let bad := shadowBad S.perimeter theta_min theta_max atan2Q
  let delete_idx := (List.range n).filter bad
  let del : List ℚ → List ℚ := fun l => delete_idx.reverse.foldl (fun acc i => acc.eraseIdx i) l
  let per := S.perimeter
  ({ S with
     openings := S.openings ++ [opening_pts]
     openings_draw_pts := S.openings_draw_pts ++ [draw]
     perimeter := { per with
       x_centroid := del per.x_centroid, y_centroid := del per.y_centroid
       x_start := del per.x_start, y_start := del per.y_start
       x_end := del per.x_end, y_end := del per.y_end
       depth := del per.depth, length := del per.length, area := del per.area } },
   warned)

/-- Error raised by `solve` (`RuntimeError` on a custom perimeter without
explicit `gamma_v`, the only `raise` statement in the method). -/
inductive SolveError
  | missingLoadTransferPolicy
deriving DecidableEq

/-- Rational stand-ins for the irrational library calls `solve` makes.
`sqrtQ` models `math.sqrt`; `rotGT a` models the comparison
`|atan a / 2 * 180 / π| > 0.1` taken in the `atanCase` branch of `theta_p`;
`cosD t`/`sinD t` model `cos`/`sin` of `theta_p * π / 180`.  Theorems below
either hold for every model, or are evaluated at inputs where the consuming
branches are dead or the true values are rational (e.g. `sqrt 1 = 1`). -/
structure TransModel where
  sqrtQ : ℚ → ℚ
  rotGT : ℚ → Bool
  cosD : ThetaP → ℚ
  sinD : ThetaP → ℚ

/-- Decision `abs(required_rotation) > 0.1` of `solve`: exact for the two
rational branches of `theta_p`, delegated to the model for the `atan`
branch. -/
def needsRotation (t : ThetaP) (m : TransModel) : Bool :=
  match t with
  | .zero => false
  | .fortyFive => true
  | .atanCase a => m.rotGT a

/-- Automatic `gamma_v` pair computed before rotation ("calculate gamma_v"
block of `solve`).  `none` marks the corner-with-studrail case, which the
source leaves unset here and fills in after rotation. -/
def gammaAuto (cond : Condition) (hasStud : Bool) (lx ly : ℚ) (sqrtQ : ℚ → ℚ) :
    Option ℚ × Option ℚ :=
  if hasStud then
    match cond with
    | .I =>
        (some (1 - 1 / (1 + 2/3 * sqrtQ (ly / lx))),
         some (1 - 1 / (1 + 2/3 * sqrtQ (lx / ly))))
    | .N | .S =>
        (if (1:ℚ)/5 < ly / lx then some (1 - 1 / (1 + 2/3 * sqrtQ (ly / lx) - 1/5)) else some 0,
         some (1 - 1 / (1 + 2/3 * sqrtQ (lx / ly))))
    | .W | .E =>
        (some (1 - 1 / (1 + 2/3 * sqrtQ (ly / lx))),
         if (1:ℚ)/5 < lx / ly then some (1 - 1 / (1 + 2/3 * sqrtQ (lx / ly) - 1/5)) else some 0)
    | _ => (none, none)
  else
    (some (1 - 1 / (1 + 2/3 * sqrtQ (ly / lx))),
     some (1 - 1 / (1 + 2/3 * sqrtQ (lx / ly))))

/-- Corner-with-studrail `gamma_v`, computed by `solve` in the rotated
principal orientation. -/
def gammaCorner (lx ly : ℚ) (sqrtQ : ℚ → ℚ) : ℚ × ℚ :=
  if lx < ly then
    (2/5, if (1:ℚ)/5 < lx / ly then 1 - 1 / (1 + 2/3 * sqrtQ (lx / ly) - 1/5) else 0)
  else
    (if (1:ℚ)/5 < ly / lx then 1 - 1 / (1 + 2/3 * sqrtQ (ly / lx) - 1/5) else 0, 2/5)

/-- Everything a completed `solve` call stores or reports: the mutated object
state (`sec`), the applied-force attributes assigned to `self`, and the local
sums/residuals/flags of the equilibrium check (the printed report). -/
structure SolveOutput where
  sec : PunchingShearSection
  P : ℚ
  Mx : ℚ
  My : ℚ
  Pex : ℚ
  Pey : ℚ
  gamma_vx : ℚ
  gamma_vy : ℚ
  Mx_final : ℚ
  My_final : ℚ
  v_max : ℚ
  sumFz : ℚ
  sumMx : ℚ
  sumMy : ℚ
  residual_Fz : ℚ
  residual_Mx : ℚ
  residual_My : ℚ
  equilibrium_check_passed : Bool
deriving DecidableEq, Inhabited

/-- Step 2 of `solve`: rotate the geometry and the applied moment vector by
`theta_p` when the section is not in principal orientation
(`abs(required_rotation) > 0.1` and `auto_rotate`).  Returns the (possibly
rotated) section together with the (possibly rotated) moment pair. -/
def solveRotated (S : PunchingShearSection) (Mx My : ℚ) (auto_rotate : Bool)
    (m : TransModel) : PunchingShearSection × ℚ × ℚ :=
  let required_rotation := (updateProperties S.perimeter).theta_p
  let doRot := needsRotation required_rotation m && auto_rotate
  let c := m.cosD required_rotation
  let s := m.sinD required_rotation
  if doRot then (S.rotate c s, c * Mx - s * My, s * Mx + c * My) else (S, Mx, My)

/-- Straight-line body of `PunchingShearSection.solve` after its only `raise`
(the custom-perimeter check): everything from the "calculate gamma_v" block to
the equilibrium check, in source order (the rotation step is the named
`solveRotated`).  `gamma_vx = none` models the string default `"auto"`,
`some g` a caller-supplied numeric value.  Console printing is omitted; the
final pandas dataframe conversion is external and omitted (it raises
`ValueError` on length-mismatched columns — relevant to the
result-accumulation defect exhibited below). -/
def solveRun (S : PunchingShearSection) (P Mx My : ℚ) (gamma_vx gamma_vy : Option ℚ)
    (consider_Pe auto_rotate : Bool) (m : TransModel) : SolveOutput :=
    -- (console warning when 0 < P omitted: print only)
    let lx := pyMax S.perimeter.x_centroid - pyMin S.perimeter.x_centroid
    let ly := pyMax S.perimeter.y_centroid - pyMin S.perimeter.y_centroid
    let g := gammaAuto S.condition S.has_studrail lx ly m.sqrtQ
    -- rotate geometry and applied moment if not in principal orientation
    let S1 := (solveRotated S Mx My auto_rotate m).1
    let Mx1 := (solveRotated S Mx My auto_rotate m).2.1
    let My1 := (solveRotated S Mx My auto_rotate m).2.2
    -- update properties again after rotation
    let props1 := updateProperties S1.perimeter
    -- corner condition with studrails: gamma_v in the rotated orientation
    let corner : Bool :=
      match S.condition with
      | .NW | .NE | .SW | .SE => true
      | _ => false
    let g1 :=
      if S.has_studrail && corner then
        let lx1 := pyMax S1.perimeter.x_centroid - pyMin S1.perimeter.x_centroid
        let ly1 := pyMax S1.perimeter.y_centroid - pyMin S1.perimeter.y_centroid
        let p := gammaCorner lx1 ly1 m.sqrtQ
        (some p.1, some p.2)
      else g
    -- user-provided gamma overrides the computed value; the `getD 0` defaults
    -- are unreachable because the only `none` case (corner with studrail) is
    -- always refilled above
    let gvx := gamma_vx.getD (g1.1.getD 0)
    let gvy := gamma_vy.getD (g1.2.getD 0)
    -- eccentricity moment, with the right-hand-rule sign flip on Pey
    let Pex := if consider_Pe then P * props1.x_centroid else 0
    let Pey := if consider_Pe then -(P * props1.y_centroid) else 0
    let Mx_final := gvx * (Mx1 + Pey)
    let My_final := gvy * (My1 + Pex)
    -- per-patch elastic superposition
    let n := S1.perimeter.x_centroid.length
    let fdx : ℕ → ℚ := fun i => S1.perimeter.x_centroid.getD i 0 - props1.x_centroid
    let fdy : ℕ → ℚ := fun i => S1.perimeter.y_centroid.getD i 0 - props1.y_centroid
    let v_axial := P / props1.A
    let fvMx : ℕ → ℚ := fun i => Mx_final * fdy i / props1.Ix
    let fvMy : ℕ → ℚ := fun i => -(My_final * fdx i) / props1.Iy
    let fvTot : ℕ → ℚ := fun i => v_axial + fvMx i + fvMy i
    let fFz : ℕ → ℚ := fun i => fvTot i * S1.perimeter.area.getD i 0
    let fMxi : ℕ → ℚ := fun i => fFz i * fdy i
    let fMyi : ℕ → ℚ := fun i => -(fFz i * fdx i)
    let idx := List.range n
    let per1 := S1.perimeter
    -- results are appended to the stored columns (the source never clears them)
    let per2 := { per1 with
      v_axial := per1.v_axial ++ idx.map (fun _ => v_axial)
      v_Mx := per1.v_Mx ++ idx.map fvMx
      v_My := per1.v_My ++ idx.map fvMy
      v_total := per1.v_total ++ idx.map fvTot
      Fz := per1.Fz ++ idx.map fFz
      Mxi := per1.Mxi ++ idx.map fMxi
      Myi := per1.Myi ++ idx.map fMyi }
    let v_max := |maxByAbs per2.v_total|
    -- equilibrium check against TOL = 0.1; the flags are the printed strings,
    -- their conjunction is stored as `equilibrium_check_passed`
    let sumFz := per2.Fz.sum
    let sumMx := per2.Mxi.sum
    let sumMy := per2.Myi.sum
    let residual_Fz := sumFz - P
    let residual_Mx := sumMx - Mx_final
    let residual_My := sumMy - My_final
    let flag_Fz := decide (|residual_Fz| < 1/10)
    let flag_Mx := decide (|residual_Mx| < 1/10)
    let flag_My := decide (|residual_My| < 1/10)
    { sec := { S1 with perimeter := per2 }
      P := P, Mx := Mx1, My := My1, Pex := Pex, Pey := Pey
      gamma_vx := gvx, gamma_vy := gvy, Mx_final := Mx_final, My_final := My_final
      v_max := v_max
      sumFz := sumFz, sumMx := sumMx, sumMy := sumMy
      residual_Fz := residual_Fz, residual_Mx := residual_Mx, residual_My := residual_My
      equilibrium_check_passed := flag_Fz && flag_Mx && flag_My }

/-- Translation of `PunchingShearSection.solve`: the custom-perimeter guard
(the method's only `raise`) followed by the straight-line computation
`solveRun`. -/
def solve (S : PunchingShearSection) (P Mx My : ℚ) (gamma_vx gamma_vy : Option ℚ)
    (consider_Pe auto_rotate : Bool) (m : TransModel) : Except SolveError SolveOutput :=
  -- if perimeter is defined by user, gamma_v must be specified explicitly
  let did_not_auto_generate_perimeter := ! S.generate_perimeter
  let did_not_specify_gamma_v := gamma_vx.isNone || gamma_vy.isNone
  if did_not_auto_generate_perimeter && did_not_specify_gamma_v then
    .error .missingLoadTransferPolicy
  else
    .ok (solveRun S P Mx My gamma_vx gamma_vy consider_Pe auto_rotate m)

/-- Claim C7's wording of the principal-angle rule, for comparison with the
source's `thetaPOf`: both tolerance tests are read as plain absolute
comparisons against `1e-6`. -/
def thetaPSpec (Ix Iy Ixy : ℚ) : ThetaP :=
  if |Ixy| ≤ 1/1000000 then .zero
  else if |Ix - Iy| ≤ 1/1000000 then .fortyFive
  else .atanCase (Ixy / ((Ix - Iy) / 2))

/-- Geometry columns of the parallel-list dict are index-synchronized (always
true for states reachable through `add_perimeter`/`add_opening`/`rotate`; the
dict representation itself does not enforce it). -/
def Perimeter.sync (per : Perimeter) : Prop :=
  per.y_centroid.length = per.x_centroid.length ∧
  per.x_start.length = per.x_centroid.length ∧
  per.y_start.length = per.x_centroid.length ∧
  per.x_end.length = per.x_centroid.length ∧
  per.y_end.length = per.x_centroid.length ∧
  per.depth.length = per.x_centroid.length ∧
  per.length.length = per.x_centroid.length ∧
  per.area.length = per.x_centroid.length

instance (per : Perimeter) : Decidable per.sync := by
  unfold Perimeter.sync; infer_instance

/-- Output of a completed call, extracted from the `Except` (defaulting on the
error case, which the concrete runs below never hit). -/
def solveOut (r : Except SolveError SolveOutput) : SolveOutput :=
  r.toOption.getD default

/-- 24×24 interior square column, slab depth 12, patch size 40: the four
36-long sides are each a single patch. -/
def sq4 : PunchingShearSection := mkAutoI 24 24 12 40

/-- 24×24 interior square column, slab depth 12, patch size 2: 18 patches per
36-long side, 72 patches in total, area `A = 72 · 24 = 1728`. -/
def sq72 : PunchingShearSection := mkAutoI 24 24 12 2

/-- Model used for the concrete interior-square runs: those sections satisfy
`lx = ly`, so `math.sqrt` is only consulted at `1` where its true value is the
rational `1`; `theta_p = zero` there, so the rotation fields are dead. -/
def oneModel : TransModel := ⟨fun _ => 1, fun _ => false, fun _ => 1, fun _ => 0⟩

/-- User-drawn two-patch L-shaped perimeter (two `add_perimeter` calls with a
patch size larger than the 4-long segments): centroids `(2,0)` and `(4,2)`,
areas `4` and `4`, hence `Ixy = 8 ≠ 0` — not in principal orientation. -/
def cexPerim : Perimeter :=
  addPerimeter (addPerimeter Perimeter.empty 0 0 4 0 4 1 10) 4 0 4 4 4 1 10

/-- Section carrying `cexPerim` as a user-supplied (non-auto-generated)
perimeter. -/
def cexSec : PunchingShearSection :=
  { perimeter := cexPerim, generate_perimeter := false, has_studrail := false
    condition := .I, slab_depth := 1, openings := [], openings_draw_pts := []
    studrail_pts := [], col_pts := [], slabedge_pts := [], slabedge_lines := [] }

/-- Four single-patch user segments engineered so that `Ix = 2·10⁶` and
`Iy = 2·10⁶ + 10⁻³` differ by more than `1e-6` while Python's `isclose`
(relative tolerance `1e-9` of `2·10⁶` is `2·10⁻³`) still accepts them as
equal; `Ixy = 2·10⁶`. -/
def bigPerim : Perimeter :=
  addPerimeter (addPerimeter (addPerimeter (addPerimeter Perimeter.empty
    (1999/2) 1000 (2001/2) 1000 1 1 10)
    (-2001/2) (-1000) (-1999/2) (-1000) 1 1 10)
    (1/2) 0 (3/2) 0 1 (1/2000) 10)
    (-3/2) 0 (-1/2) 0 1 (1/2000) 10

/-- The same geometry as `sq4`, but marked as drawn by the user
(`auto_generate_perimeter=False`). -/
def customSq : PunchingShearSection := { sq4 with generate_perimeter := false }

/-- Concrete completed run used as a witness: interior square under pure
gravity load. -/
def sq4run : SolveOutput := solveOut (solve sq4 (-100) 0 0 none none true true oneModel)

/-- Concrete completed run with eccentricity consideration on and
caller-supplied transfer fractions. -/
def pe4run : SolveOutput :=
  solveOut (solve sq4 (-100) 20 30 (some (2/5)) (some (1/3)) true true oneModel)

/-- Concrete completed run with the all-zero load case. -/
def zero4run : SolveOutput := solveOut (solve sq4 0 0 0 none none true true oneModel)

unseal Rat.add Rat.mul Rat.inv Rat.sub

set_option maxRecDepth 40000

/-! Helper lemmas. -/

theorem except_eq_ok_of_toOption {r : Except SolveError SolveOutput} {a : SolveOutput}
    (h : r.toOption = some a) : r = .ok a := by
  cases r with
  | error e => simp [Except.toOption] at h
  | ok b => simp only [Except.toOption, Option.some.injEq] at h; rw [h]

theorem solve_eq_ok_iff {S : PunchingShearSection} {P Mx My : ℚ} {gvx gvy : Option ℚ}
    {cP aR : Bool} {m : TransModel} {out : SolveOutput} :
    solve S P Mx My gvx gvy cP aR m = .ok out ↔
      (!S.generate_perimeter && (gvx.isNone || gvy.isNone)) = false ∧
      out = solveRun S P Mx My gvx gvy cP aR m := by
  unfold solve
  dsimp only
  split
  · rename_i h
    simp only [reduceCtorEq, false_iff, not_and]
    intro hfalse
    rw [h] at hfalse
    cases hfalse
  · rename_i h
    simp only [Except.ok.injEq, Bool.not_eq_true] at h ⊢
    constructor
    · intro he
      exact ⟨h, he.symm⟩
    · rintro ⟨-, he⟩
      exact he.symm

/-! C10. -/

/-- C10: `rotate` changes only coordinate data: every patch's `length`,
`depth` and `area` entry (and every stored result column) is unchanged by the
rotation, and the total area `A` and total perimeter length `L` recomputed
immediately afterwards equal their values before the rotation.  Quantifying
over the matrix entries `c`, `s` covers every rotation angle. -/
theorem rotate_changes_only_coordinates (S : PunchingShearSection) (c s : ℚ) :
    (S.rotate c s).perimeter.length = S.perimeter.length ∧
    (S.rotate c s).perimeter.depth = S.perimeter.depth ∧
    (S.rotate c s).perimeter.area = S.perimeter.area ∧
    (S.rotate c s).perimeter.v_axial = S.perimeter.v_axial ∧
    (S.rotate c s).perimeter.v_Mx = S.perimeter.v_Mx ∧
    (S.rotate c s).perimeter.v_My = S.perimeter.v_My ∧
    (S.rotate c s).perimeter.v_total = S.perimeter.v_total ∧
    (S.rotate c s).perimeter.Fz = S.perimeter.Fz ∧
    (S.rotate c s).perimeter.Mxi = S.perimeter.Mxi ∧
    (S.rotate c s).perimeter.Myi = S.perimeter.Myi ∧
    (updateProperties ((S.rotate c s).perimeter)).A = (updateProperties S.perimeter).A ∧
    (updateProperties ((S.rotate c s).perimeter)).L = (updateProperties S.perimeter).L :=
  ⟨rfl, rfl, rfl, rfl, rfl, rfl, rfl, rfl, rfl, rfl, rfl, rfl⟩

/-! C6. -/

/-- C6: `solve` fails with the missing-transfer-policy error — producing no
result — exactly when the perimeter was user-supplied
(`auto_generate_perimeter=False`) and at least one of `gamma_vx`, `gamma_vy`
was left at its `"auto"` default.  The hypothesis `updateSafe` records that
the `update_properties()` call preceding the check completes in the source
(Python would otherwise raise `ZeroDivisionError` first). -/
theorem missing_gamma_error_iff (S : PunchingShearSection) (P Mx My : ℚ)
    (gvx gvy : Option ℚ) (cP aR : Bool) (m : TransModel)
    (_hsafe : updateSafe S.perimeter) :
    solve S P Mx My gvx gvy cP aR m = .error .missingLoadTransferPolicy ↔
      (S.generate_perimeter = false ∧ (gvx = none ∨ gvy = none)) := by
  unfold solve
  dsimp only
  split
  · rename_i h
    simp only [Bool.and_eq_true, Bool.not_eq_true', Bool.or_eq_true,
      Option.isNone_iff_eq_none] at h
    simpa using h
  · rename_i h
    simp only [Bool.and_eq_true, Bool.not_eq_true', Bool.or_eq_true,
      Option.isNone_iff_eq_none, not_and_or, not_or] at h
    simp only [reduceCtorEq, false_iff]
    tauto

/-- Witness for C6 at a concrete input: a user-drawn square with `gamma_vx`
left `"auto"` is rejected. -/
theorem missing_gamma_error_iff_witness :
    solve customSq 1 2 3 none (some (2/5)) true true oneModel
      = .error .missingLoadTransferPolicy :=
  (missing_gamma_error_iff customSq 1 2 3 none (some (2/5)) true true oneModel
    (by decide)).mpr ⟨rfl, Or.inl rfl⟩

/-! C1. -/

/-- C1 counterexample: a completed `solve` call on a section that is not in
principal orientation (`auto_rotate=False`) whose moment residual is `-10`,
far outside the `0.1` tolerance, yet the call returns normally with the
violation merely recorded in the `equilibrium_check_passed` flag (and printed
warning strings) — no error is raised.  This refutes the claim that an
out-of-tolerance residual surfaces as a synchronously raised
`EquilibriumViolation`. -/
theorem equilibrium_violation_not_raised :
    (solve cexSec 0 0 10 (some 1) (some 1) false false oneModel).toOption.map
        (fun o => (o.equilibrium_check_passed, decide (|o.residual_Mx| < 1/10)))
      = some (false, false) := by decide

/-- C1 amended: every `solve` call that completes the per-patch computation
compares the residuals `sum Fz − P`, `sum Mxi − Mx_final`, `sum Myi − My_final`
against the absolute tolerance `0.1` and records the outcome in the boolean
`equilibrium_check_passed` (and printed warning flags); an out-of-tolerance
residual is not raised as an error and the results are still returned. -/
theorem equilibrium_residuals_checked_and_flagged
    (S : PunchingShearSection) (P Mx My : ℚ) (gvx gvy : Option ℚ) (cP aR : Bool)
    (m : TransModel) (out : SolveOutput)
    (h : solve S P Mx My gvx gvy cP aR m = .ok out) :
    out.sumFz = out.sec.perimeter.Fz.sum ∧
    out.sumMx = out.sec.perimeter.Mxi.sum ∧
    out.sumMy = out.sec.perimeter.Myi.sum ∧
    out.residual_Fz = out.sumFz - out.P ∧
    out.residual_Mx = out.sumMx - out.Mx_final ∧
    out.residual_My = out.sumMy - out.My_final ∧
    out.equilibrium_check_passed =
      (decide (|out.residual_Fz| < 1/10) && decide (|out.residual_Mx| < 1/10) &&
        decide (|out.residual_My| < 1/10)) := by
  obtain ⟨-, rfl⟩ := solve_eq_ok_iff.mp h
  exact ⟨rfl, rfl, rfl, rfl, rfl, rfl, rfl⟩

/-- Witness for the amended C1 at a concrete completed run. -/
theorem equilibrium_residuals_checked_and_flagged_witness :
    sq4run.equilibrium_check_passed =
      (decide (|sq4run.residual_Fz| < 1/10) && decide (|sq4run.residual_Mx| < 1/10) &&
        decide (|sq4run.residual_My| < 1/10)) :=
  (equilibrium_residuals_checked_and_flagged sq4 (-100) 0 0 none none true true
    oneModel sq4run (except_eq_ok_of_toOption (by decide))).2.2.2.2.2.2

/-! C3. -/

/-- C3: with eccentricity consideration enabled, `Pex = P·xc` and
`Pey = −P·yc` for the (possibly rotated) perimeter centroid `(xc, yc)`, the
final design moments are `Mx_final = gamma_vx·(Mx + Pey)` and
`My_final = gamma_vy·(My + Pex)` (with `Mx`, `My` the stored, possibly
rotated, applied moments), and a caller-supplied numeric fraction is always
used in place of the automatically computed one. -/
theorem eccentricity_and_gamma_override
    (S : PunchingShearSection) (P Mx My : ℚ) (gvx gvy : Option ℚ) (aR : Bool)
    (m : TransModel) (out : SolveOutput)
    (h : solve S P Mx My gvx gvy true aR m = .ok out) :
    out.Pex = out.P * (updateProperties out.sec.perimeter).x_centroid ∧
    out.Pey = -(out.P * (updateProperties out.sec.perimeter).y_centroid) ∧
    out.Mx_final = out.gamma_vx * (out.Mx + out.Pey) ∧
    out.My_final = out.gamma_vy * (out.My + out.Pex) ∧
    (∀ g, gvx = some g → out.gamma_vx = g) ∧
    (∀ g, gvy = some g → out.gamma_vy = g) := by
  obtain ⟨-, rfl⟩ := solve_eq_ok_iff.mp h
  refine ⟨rfl, rfl, rfl, rfl, ?_, ?_⟩ <;> (rintro g rfl; rfl)

/-- Witness for C3 at a concrete run with caller-supplied fractions. -/
theorem eccentricity_and_gamma_override_witness :
    pe4run.Pex = pe4run.P * (updateProperties pe4run.sec.perimeter).x_centroid ∧
    pe4run.gamma_vx = 2/5 ∧ pe4run.gamma_vy = 1/3 := by
  have h := eccentricity_and_gamma_override sq4 (-100) 20 30 (some (2/5)) (some (1/3))
    true oneModel pe4run (except_eq_ok_of_toOption (by decide))
  exact ⟨h.1, h.2.2.2.2.1 _ rfl, h.2.2.2.2.2 _ rfl⟩

/-! Facts about the rotation step used by several claims below. -/

theorem solveRotated_keeps_result_columns (S : PunchingShearSection) (Mx My : ℚ)
    (aR : Bool) (m : TransModel) :
    (solveRotated S Mx My aR m).1.perimeter.v_axial = S.perimeter.v_axial ∧
    (solveRotated S Mx My aR m).1.perimeter.v_Mx = S.perimeter.v_Mx ∧
    (solveRotated S Mx My aR m).1.perimeter.v_My = S.perimeter.v_My ∧
    (solveRotated S Mx My aR m).1.perimeter.v_total = S.perimeter.v_total ∧
    (solveRotated S Mx My aR m).1.perimeter.Fz = S.perimeter.Fz ∧
    (solveRotated S Mx My aR m).1.perimeter.Mxi = S.perimeter.Mxi ∧
    (solveRotated S Mx My aR m).1.perimeter.Myi = S.perimeter.Myi := by
  unfold solveRotated
  dsimp only
  split <;> exact ⟨rfl, rfl, rfl, rfl, rfl, rfl, rfl⟩

theorem solveRotated_zero_moments (S : PunchingShearSection) (aR : Bool) (m : TransModel) :
    (solveRotated S 0 0 aR m).2.1 = 0 ∧ (solveRotated S 0 0 aR m).2.2 = 0 := by
  unfold solveRotated
  dsimp only
  split
  · constructor <;> simp
  · exact ⟨rfl, rfl⟩

/-! C5. -/

/-- C5 counterexample: the all-zero load case is not rejected — `solve` has no
`NoAppliedLoad` (or any all-zero) check — the call completes normally and
returns a result, with zero stress on every patch. -/
theorem zero_load_not_rejected :
    (solve sq4 0 0 0 none none true true oneModel).toOption.map
      (fun o => o.sec.perimeter.v_total) = some (List.replicate 4 0) := by decide

/-- C5 amended: `solve` accepts a load case with `P = Mx = My = 0` and
completes: every newly computed per-patch stress is zero, and on a section
with no previously stored result columns the equilibrium check passes. -/
theorem zero_load_zero_stress
    (S : PunchingShearSection) (gvx gvy : Option ℚ) (cP aR : Bool) (m : TransModel)
    (out : SolveOutput) (h : solve S 0 0 0 gvx gvy cP aR m = .ok out) :
    (∀ v ∈ out.sec.perimeter.v_total.drop S.perimeter.v_total.length, v = 0) ∧
    (S.perimeter.Fz = [] → S.perimeter.Mxi = [] → S.perimeter.Myi = [] →
      out.equilibrium_check_passed = true) := by
  obtain ⟨-, rfl⟩ := solve_eq_ok_iff.mp h
  have hM := solveRotated_zero_moments S aR m
  have hcols := solveRotated_keeps_result_columns S 0 0 aR m
  have hPey : (solveRun S 0 0 0 gvx gvy cP aR m).Pey
      = (if cP then
          -((0:ℚ) * (updateProperties (solveRotated S 0 0 aR m).1.perimeter).y_centroid)
        else 0) := rfl
  have hPex : (solveRun S 0 0 0 gvx gvy cP aR m).Pex
      = (if cP then
          (0:ℚ) * (updateProperties (solveRotated S 0 0 aR m).1.perimeter).x_centroid
        else 0) := rfl
  have hMxf : (solveRun S 0 0 0 gvx gvy cP aR m).Mx_final
      = (solveRun S 0 0 0 gvx gvy cP aR m).gamma_vx *
        ((solveRotated S 0 0 aR m).2.1 + (solveRun S 0 0 0 gvx gvy cP aR m).Pey) := rfl
  have hMyf : (solveRun S 0 0 0 gvx gvy cP aR m).My_final
      = (solveRun S 0 0 0 gvx gvy cP aR m).gamma_vy *
        ((solveRotated S 0 0 aR m).2.2 + (solveRun S 0 0 0 gvx gvy cP aR m).Pex) := rfl
  have hMxf0 : (solveRun S 0 0 0 gvx gvy cP aR m).Mx_final = 0 := by
    rw [hMxf, hM.1, hPey]; simp
  have hMyf0 : (solveRun S 0 0 0 gvx gvy cP aR m).My_final = 0 := by
    rw [hMyf, hM.2, hPex]; simp
  have eTot : (solveRun S 0 0 0 gvx gvy cP aR m).sec.perimeter.v_total
      = (solveRotated S 0 0 aR m).1.perimeter.v_total ++
        (List.range (solveRotated S 0 0 aR m).1.perimeter.x_centroid.length).map
          (fun i =>
            (0:ℚ) / (updateProperties (solveRotated S 0 0 aR m).1.perimeter).A
            + (solveRun S 0 0 0 gvx gvy cP aR m).Mx_final *
                ((solveRotated S 0 0 aR m).1.perimeter.y_centroid.getD i 0 -
                  (updateProperties (solveRotated S 0 0 aR m).1.perimeter).y_centroid) /
                (updateProperties (solveRotated S 0 0 aR m).1.perimeter).Ix
            + -((solveRun S 0 0 0 gvx gvy cP aR m).My_final *
                  ((solveRotated S 0 0 aR m).1.perimeter.x_centroid.getD i 0 -
                    (updateProperties (solveRotated S 0 0 aR m).1.perimeter).x_centroid)) /
                (updateProperties (solveRotated S 0 0 aR m).1.perimeter).Iy) := rfl
  have eFz : (solveRun S 0 0 0 gvx gvy cP aR m).sec.perimeter.Fz
      = (solveRotated S 0 0 aR m).1.perimeter.Fz ++
        (List.range (solveRotated S 0 0 aR m).1.perimeter.x_centroid.length).map
          (fun i =>
            ((0:ℚ) / (updateProperties (solveRotated S 0 0 aR m).1.perimeter).A
            + (solveRun S 0 0 0 gvx gvy cP aR m).Mx_final *
                ((solveRotated S 0 0 aR m).1.perimeter.y_centroid.getD i 0 -
                  (updateProperties (solveRotated S 0 0 aR m).1.perimeter).y_centroid) /
                (updateProperties (solveRotated S 0 0 aR m).1.perimeter).Ix
            + -((solveRun S 0 0 0 gvx gvy cP aR m).My_final *
                  ((solveRotated S 0 0 aR m).1.perimeter.x_centroid.getD i 0 -
                    (updateProperties (solveRotated S 0 0 aR m).1.perimeter).x_centroid)) /
                (updateProperties (solveRotated S 0 0 aR m).1.perimeter).Iy) *
            (solveRotated S 0 0 aR m).1.perimeter.area.getD i 0) := rfl
  have eMxi : (solveRun S 0 0 0 gvx gvy cP aR m).sec.perimeter.Mxi
      = (solveRotated S 0 0 aR m).1.perimeter.Mxi ++
        (List.range (solveRotated S 0 0 aR m).1.perimeter.x_centroid.length).map
          (fun i =>
            (((0:ℚ) / (updateProperties (solveRotated S 0 0 aR m).1.perimeter).A
            + (solveRun S 0 0 0 gvx gvy cP aR m).Mx_final *
                ((solveRotated S 0 0 aR m).1.perimeter.y_centroid.getD i 0 -
                  (updateProperties (solveRotated S 0 0 aR m).1.perimeter).y_centroid) /
                (updateProperties (solveRotated S 0 0 aR m).1.perimeter).Ix
            + -((solveRun S 0 0 0 gvx gvy cP aR m).My_final *
                  ((solveRotated S 0 0 aR m).1.perimeter.x_centroid.getD i 0 -
                    (updateProperties (solveRotated S 0 0 aR m).1.perimeter).x_centroid)) /
                (updateProperties (solveRotated S 0 0 aR m).1.perimeter).Iy) *
            (solveRotated S 0 0 aR m).1.perimeter.area.getD i 0) *
            ((solveRotated S 0 0 aR m).1.perimeter.y_centroid.getD i 0 -
              (updateProperties (solveRotated S 0 0 aR m).1.perimeter).y_centroid)) := rfl
  have eMyi : (solveRun S 0 0 0 gvx gvy cP aR m).sec.perimeter.Myi
      = (solveRotated S 0 0 aR m).1.perimeter.Myi ++
        (List.range (solveRotated S 0 0 aR m).1.perimeter.x_centroid.length).map
          (fun i =>
            -((((0:ℚ) / (updateProperties (solveRotated S 0 0 aR m).1.perimeter).A
            + (solveRun S 0 0 0 gvx gvy cP aR m).Mx_final *
                ((solveRotated S 0 0 aR m).1.perimeter.y_centroid.getD i 0 -
                  (updateProperties (solveRotated S 0 0 aR m).1.perimeter).y_centroid) /
                (updateProperties (solveRotated S 0 0 aR m).1.perimeter).Ix
            + -((solveRun S 0 0 0 gvx gvy cP aR m).My_final *
                  ((solveRotated S 0 0 aR m).1.perimeter.x_centroid.getD i 0 -
                    (updateProperties (solveRotated S 0 0 aR m).1.perimeter).x_centroid)) /
                (updateProperties (solveRotated S 0 0 aR m).1.perimeter).Iy) *
            (solveRotated S 0 0 aR m).1.perimeter.area.getD i 0) *
            ((solveRotated S 0 0 aR m).1.perimeter.x_centroid.getD i 0 -
              (updateProperties (solveRotated S 0 0 aR m).1.perimeter).x_centroid))) := rfl
  have hflag : (solveRun S 0 0 0 gvx gvy cP aR m).equilibrium_check_passed
      = (decide (|(solveRun S 0 0 0 gvx gvy cP aR m).sec.perimeter.Fz.sum - (0:ℚ)| < 1/10) &&
          decide (|(solveRun S 0 0 0 gvx gvy cP aR m).sec.perimeter.Mxi.sum -
            (solveRun S 0 0 0 gvx gvy cP aR m).Mx_final| < 1/10) &&
          decide (|(solveRun S 0 0 0 gvx gvy cP aR m).sec.perimeter.Myi.sum -
            (solveRun S 0 0 0 gvx gvy cP aR m).My_final| < 1/10)) := rfl
  constructor
  · rw [eTot, hcols.2.2.2.1, List.drop_left, hMxf0, hMyf0]
    intro v hv
    simp only [zero_mul, mul_zero, zero_div, neg_zero, add_zero, zero_add,
      List.map_const'] at hv
    exact List.eq_of_mem_replicate hv
  · intro h1 h2 h3
    rw [hflag, eFz, eMxi, eMyi, hcols.2.2.2.2.1, hcols.2.2.2.2.2.1, hcols.2.2.2.2.2.2,
      h1, h2, h3, hMxf0, hMyf0]
    simp only [zero_mul, mul_zero, zero_div, neg_zero, add_zero, zero_add,
      List.map_const', List.nil_append, List.sum_replicate, smul_zero, sub_zero,
      abs_zero, decide_eq_true_eq, Bool.and_eq_true]
    norm_num

/-- Witness for the amended C5 at a concrete run. -/
theorem zero_load_zero_stress_witness :
    zero4run.equilibrium_check_passed = true :=
  (zero_load_zero_stress sq4 none none true true oneModel zero4run
    (except_eq_ok_of_toOption (by decide))).2 rfl rfl rfl

/-! C2. -/

set_option maxHeartbeats 1000000 in
/-- C2: on every completed `solve` call, the freshly appended result columns
record, for each patch `i` at offset `(dx i, dy i)` from the (post-rotation)
centroid, the three stress summands separately — `v_axial = P/A`,
`v_Mx i = Mx_final·dy i/Ix`, `v_My i = −(My_final·dx i)/Iy` — and their total
`P/A + Mx_final·dy i/Ix − My_final·dx i/Iy`; and concretely, a 24×24 square
interior perimeter under `P = −100`, `Mx = My = 0` gives every one of its 72
patches the same uniform stress `−100/A = −100/1728`. -/
theorem patch_stress_superposition :
    (∀ (S : PunchingShearSection) (P Mx My : ℚ) (gvx gvy : Option ℚ) (cP aR : Bool)
        (m : TransModel) (out : SolveOutput),
      solve S P Mx My gvx gvy cP aR m = .ok out →
      out.sec.perimeter.v_axial.drop S.perimeter.v_axial.length
          = List.replicate out.sec.perimeter.x_centroid.length
              (out.P / (updateProperties out.sec.perimeter).A) ∧
      out.sec.perimeter.v_Mx.drop S.perimeter.v_Mx.length
          = (List.range out.sec.perimeter.x_centroid.length).map (fun i =>
              out.Mx_final * (out.sec.perimeter.y_centroid.getD i 0 -
                (updateProperties out.sec.perimeter).y_centroid) /
                (updateProperties out.sec.perimeter).Ix) ∧
      out.sec.perimeter.v_My.drop S.perimeter.v_My.length
          = (List.range out.sec.perimeter.x_centroid.length).map (fun i =>
              -(out.My_final * (out.sec.perimeter.x_centroid.getD i 0 -
                (updateProperties out.sec.perimeter).x_centroid)) /
                (updateProperties out.sec.perimeter).Iy) ∧
      out.sec.perimeter.v_total.drop S.perimeter.v_total.length
          = (List.range out.sec.perimeter.x_centroid.length).map (fun i =>
              out.P / (updateProperties out.sec.perimeter).A
              + out.Mx_final * (out.sec.perimeter.y_centroid.getD i 0 -
                  (updateProperties out.sec.perimeter).y_centroid) /
                  (updateProperties out.sec.perimeter).Ix
              - out.My_final * (out.sec.perimeter.x_centroid.getD i 0 -
                  (updateProperties out.sec.perimeter).x_centroid) /
                  (updateProperties out.sec.perimeter).Iy)) ∧
    (solve sq72 (-100) 0 0 none none true true oneModel).toOption.map
        (fun o => o.sec.perimeter.v_total) = some (List.replicate 72 (-100/1728)) := by
  constructor
  · intro S P Mx My gvx gvy cP aR m out h
    obtain ⟨-, rfl⟩ := solve_eq_ok_iff.mp h
    have hcols := solveRotated_keeps_result_columns S Mx My aR m
    have hup : updateProperties (solveRun S P Mx My gvx gvy cP aR m).sec.perimeter
        = updateProperties (solveRotated S Mx My aR m).1.perimeter := rfl
    have hxc : (solveRun S P Mx My gvx gvy cP aR m).sec.perimeter.x_centroid
        = (solveRotated S Mx My aR m).1.perimeter.x_centroid := rfl
    have hyc : (solveRun S P Mx My gvx gvy cP aR m).sec.perimeter.y_centroid
        = (solveRotated S Mx My aR m).1.perimeter.y_centroid := rfl
    have hP : (solveRun S P Mx My gvx gvy cP aR m).P = P := rfl
    rw [hup, hxc, hyc, hP]
    have eAx : (solveRun S P Mx My gvx gvy cP aR m).sec.perimeter.v_axial
        = (solveRotated S Mx My aR m).1.perimeter.v_axial ++
          (List.range (solveRotated S Mx My aR m).1.perimeter.x_centroid.length).map
            (fun _ =>
              P / (updateProperties (solveRotated S Mx My aR m).1.perimeter).A) := rfl
    have eMx : (solveRun S P Mx My gvx gvy cP aR m).sec.perimeter.v_Mx
        = (solveRotated S Mx My aR m).1.perimeter.v_Mx ++
          (List.range (solveRotated S Mx My aR m).1.perimeter.x_centroid.length).map
            (fun i =>
              (solveRun S P Mx My gvx gvy cP aR m).Mx_final *
                ((solveRotated S Mx My aR m).1.perimeter.y_centroid.getD i 0 -
                  (updateProperties (solveRotated S Mx My aR m).1.perimeter).y_centroid) /
                (updateProperties (solveRotated S Mx My aR m).1.perimeter).Ix) := rfl
    have eMy : (solveRun S P Mx My gvx gvy cP aR m).sec.perimeter.v_My
        = (solveRotated S Mx My aR m).1.perimeter.v_My ++
          (List.range (solveRotated S Mx My aR m).1.perimeter.x_centroid.length).map
            (fun i =>
              -((solveRun S P Mx My gvx gvy cP aR m).My_final *
                  ((solveRotated S Mx My aR m).1.perimeter.x_centroid.getD i 0 -
                    (updateProperties (solveRotated S Mx My aR m).1.perimeter).x_centroid)) /
                (updateProperties (solveRotated S Mx My aR m).1.perimeter).Iy) := rfl
    have eTot : (solveRun S P Mx My gvx gvy cP aR m).sec.perimeter.v_total
        = (solveRotated S Mx My aR m).1.perimeter.v_total ++
          (List.range (solveRotated S Mx My aR m).1.perimeter.x_centroid.length).map
            (fun i =>
              P / (updateProperties (solveRotated S Mx My aR m).1.perimeter).A
              + (solveRun S P Mx My gvx gvy cP aR m).Mx_final *
                  ((solveRotated S Mx My aR m).1.perimeter.y_centroid.getD i 0 -
                    (updateProperties (solveRotated S Mx My aR m).1.perimeter).y_centroid) /
                  (updateProperties (solveRotated S Mx My aR m).1.perimeter).Ix
              + -((solveRun S P Mx My gvx gvy cP aR m).My_final *
                    ((solveRotated S Mx My aR m).1.perimeter.x_centroid.getD i 0 -
                      (updateProperties (solveRotated S Mx My aR m).1.perimeter).x_centroid)) /
                  (updateProperties (solveRotated S Mx My aR m).1.perimeter).Iy) := rfl
    refine ⟨?_, ?_, ?_, ?_⟩
    · rw [eAx, hcols.1, List.drop_left, List.map_const', List.length_range]
    · rw [eMx, hcols.2.1, List.drop_left]
    · rw [eMy, hcols.2.2.1, List.drop_left]
    · rw [eTot, hcols.2.2.2.1, List.drop_left]
      refine List.map_congr_left fun i _ => by ring
  · decide

/-- Witness for C2 at a concrete completed run: the axial-stress column of the
coarse interior square. -/
theorem patch_stress_superposition_witness :
    sq4run.sec.perimeter.v_axial.drop sq4.perimeter.v_axial.length
      = List.replicate sq4run.sec.perimeter.x_centroid.length
          (sq4run.P / (updateProperties sq4run.sec.perimeter).A) :=
  (patch_stress_superposition.1 sq4 (-100) 0 0 none none true true oneModel sq4run
    (except_eq_ok_of_toOption (by decide))).1

/-! C4. -/

/-- C4: discretizing a segment of length `len > 0` at target patch size
`ps > 0` produces exactly `n = max 1 ⌊len/ps⌋` patches, all of equal stored
length `len/n` (never a variable-size remainder patch), whose start/end nodes
partition the segment uniformly, each patch inheriting the segment's depth;
the `n` stored patch lengths sum exactly to `len`. -/
theorem discretization_uniform (per : Perimeter) (sx sy ex ey len depth ps : ℚ)
    (n : ℕ) (hn : n = max 1 (⌊len / ps⌋).toNat) (_hl : 0 < len) (hs : 0 < ps) :
    (addPerimeter per sx sy ex ey len depth ps).x_centroid.length
        = per.x_centroid.length + n ∧
    (addPerimeter per sx sy ex ey len depth ps).length
        = per.length ++ List.replicate n (len / (n : ℚ)) ∧
    ((addPerimeter per sx sy ex ey len depth ps).length.drop per.length.length).sum
        = len ∧
    (addPerimeter per sx sy ex ey len depth ps).depth
        = per.depth ++ List.replicate n depth ∧
    (addPerimeter per sx sy ex ey len depth ps).x_start
        = per.x_start ++ (List.range n).map (fun (i : ℕ) => sx + ((i : ℚ) / (n : ℚ)) * (ex - sx)) ∧
    (addPerimeter per sx sy ex ey len depth ps).y_start
        = per.y_start ++ (List.range n).map (fun (i : ℕ) => sy + ((i : ℚ) / (n : ℚ)) * (ey - sy)) ∧
    (addPerimeter per sx sy ex ey len depth ps).x_end
        = per.x_end ++ (List.range n).map
            (fun (i : ℕ) => sx + (((i : ℚ) + 1) / (n : ℚ)) * (ex - sx)) ∧
    (addPerimeter per sx sy ex ey len depth ps).y_end
        = per.y_end ++ (List.range n).map
            (fun (i : ℕ) => sy + (((i : ℚ) + 1) / (n : ℚ)) * (ey - sy)) := by
  have hn0 : n ≠ 0 := by omega
  have hnQ : (n : ℚ) ≠ 0 := Nat.cast_ne_zero.mpr hn0
  -- the source's segment count equals max 1 ⌊len/ps⌋
  have hseg : (if ps < len then (⌊len / ps⌋).toNat else 1) = n := by
    rw [hn]
    split
    · rename_i hlt
      have h1 : (1 : ℚ) ≤ len / ps := by
        rw [le_div_iff₀ hs]
        linarith
      have h2 : (1 : ℤ) ≤ ⌊len / ps⌋ := Int.le_floor.mpr (by exact_mod_cast h1)
      omega
    · rename_i hge
      have h1 : len / ps ≤ 1 := by
        rw [div_le_one hs]
        linarith [not_lt.mp hge]
      have h2 : ⌊len / ps⌋ ≤ 1 := by
        calc ⌊len / ps⌋ ≤ ⌊(1 : ℚ)⌋ := Int.floor_le_floor h1
          _ = 1 := by norm_num
      omega
  unfold addPerimeter
  dsimp only
  rw [hseg]
  refine ⟨?_, rfl, ?_, rfl, ?_, ?_, ?_, ?_⟩
  · simp
  · rw [List.drop_left' (by rfl), List.sum_replicate, nsmul_eq_mul,
      mul_div_cancel₀ _ hnQ]
  · simp only [List.range_succ, List.map_append, List.map_cons, List.map_nil,
      List.dropLast_concat]
  · simp only [List.range_succ, List.map_append, List.map_cons, List.map_nil,
      List.dropLast_concat]
  · rw [List.range_succ_eq_map, List.map_cons, List.tail_cons, List.map_map]
    refine congrArg _ (List.map_congr_left fun i _ => ?_)
    show sx + ((i + 1 : ℕ) : ℚ) / (n : ℚ) * (ex - sx) = _
    push_cast
    ring
  · rw [List.range_succ_eq_map, List.map_cons, List.tail_cons, List.map_map]
    refine congrArg _ (List.map_congr_left fun i _ => ?_)
    show sy + ((i + 1 : ℕ) : ℚ) / (n : ℚ) * (ey - sy) = _
    push_cast
    ring

/-- Witness for C4: a length-5 segment at patch size 2 yields
`n = ⌊5/2⌋ = 2` patches of stored length `5/2`. -/
theorem discretization_uniform_witness :
    (addPerimeter Perimeter.empty 0 0 5 0 5 2 2).length
      = Perimeter.empty.length ++ List.replicate 2 ((5 : ℚ) / ((2 : ℕ) : ℚ)) :=
  (discretization_uniform Perimeter.empty 0 0 5 0 5 2 2 2 (by decide)
    (by norm_num) (by norm_num)).2.1

/-! C7. -/

/-- Comparison with zero: for `b = 0` Python's `isclose` with `rel_tol = 1e-9`
degenerates to the plain absolute comparison `|a| ≤ 1e-6` (the relative term
can only dominate when `a = 0`). -/
theorem isclose_zero_iff (a : ℚ) :
    isclose a 0 (1/1000000000) (1/1000000) = true ↔ |a| ≤ 1/1000000 := by
  unfold isclose
  rw [decide_eq_true_eq, sub_zero, abs_zero, max_eq_left (abs_nonneg a)]
  constructor
  · intro h
    rcases le_max_iff.mp h with h' | h'
    · have := abs_nonneg a
      linarith
    · exact h'
  · intro h
    exact le_max_of_le_right h

/-- Range of the halved principal-value arctangent in degrees. -/
theorem arctan_deg_mem (a : ℚ) :
    Real.arctan (a : ℝ) / 2 * (180 / Real.pi) ∈ Set.Ioc (-45 : ℝ) 45 := by
  have hpi : (0 : ℝ) < Real.pi := Real.pi_pos
  have h1 : Real.arctan (a : ℝ) < Real.pi / 2 := Real.arctan_lt_pi_div_two _
  have h2 : -(Real.pi / 2) < Real.arctan (a : ℝ) := Real.neg_pi_div_two_lt_arctan _
  have hc : (0 : ℝ) < 90 / Real.pi := by positivity
  have hv : Real.arctan (a : ℝ) / 2 * (180 / Real.pi)
      = Real.arctan (a : ℝ) * (90 / Real.pi) := by ring
  have hlo : -(Real.pi / 2) * (90 / Real.pi) = -45 := by
    field_simp
    ring
  have hhi : Real.pi / 2 * (90 / Real.pi) = 45 := by
    field_simp
    ring
  constructor
  · rw [hv, ← hlo]
    exact mul_lt_mul_of_pos_right h2 hc
  · rw [hv, ← hhi]
    exact le_of_lt (mul_lt_mul_of_pos_right h1 hc)

/-- C7 counterexample: a user-drawn perimeter with `Ix = 2·10⁶`,
`Iy = 2·10⁶ + 10⁻³`, `Ixy = 2·10⁶`.  The source's `math.isclose(Ix, Iy,
abs_tol=1e-6)` accepts the pair through its default relative tolerance
(`1e-9 · 2·10⁶ = 2·10⁻³ ≥ 10⁻³`), so `theta_p = 45`; the claim's plain
absolute 1e-6 comparison instead selects the arctangent branch (whose value
is strictly below 45°), so the claim misdescribes the computed angle. -/
theorem principal_angle_rel_tol_mismatch :
    (updateProperties bigPerim).theta_p = ThetaP.fortyFive ∧
    thetaPSpec (updateProperties bigPerim).Ix (updateProperties bigPerim).Iy
        (updateProperties bigPerim).Ixy = ThetaP.atanCase (-4000000000) ∧
    ¬ |(updateProperties bigPerim).Ix - (updateProperties bigPerim).Iy| ≤ 1/1000000 := by
  refine ⟨by decide, by decide, by decide⟩

/-- C7 amended: after every property recomputation, `theta_p = 0` exactly when
`|Ixy| ≤ 1e-6` (for the comparison against zero the `isclose` relative term is
vacuous); otherwise `theta_p = 45°` when `Ix` and `Iy` are close per Python's
`isclose` with `rel_tol = 1e-9` and `abs_tol = 1e-6` (not a plain absolute
1e-6 comparison); otherwise `theta_p = atan(Ixy/((Ix−Iy)/2))/2·180/π` with the
principal-value arctangent; consequently `theta_p` always lies in
`(−45°, 45°]`. -/
theorem principal_angle_branches (Ix Iy Ixy : ℚ) :
    (|Ixy| ≤ 1/1000000 → thetaPOf Ix Iy Ixy = .zero) ∧
    (¬ |Ixy| ≤ 1/1000000 → isclose Ix Iy (1/1000000000) (1/1000000) = true →
        thetaPOf Ix Iy Ixy = .fortyFive) ∧
    (¬ |Ixy| ≤ 1/1000000 → isclose Ix Iy (1/1000000000) (1/1000000) = false →
        thetaPOf Ix Iy Ixy = .atanCase (Ixy / ((Ix - Iy) / 2))) ∧
    (match thetaPOf Ix Iy Ixy with
      | .zero => (0 : ℝ)
      | .fortyFive => 45
      | .atanCase a => Real.arctan (a : ℝ) / 2 * (180 / Real.pi)) ∈
      Set.Ioc (-45 : ℝ) 45 := by
  refine ⟨?_, ?_, ?_, ?_⟩
  · intro h
    have hz := (isclose_zero_iff Ixy).mpr h
    unfold thetaPOf
    rw [hz]
    rfl
  · intro h hc
    have hz : isclose Ixy 0 (1/1000000000) (1/1000000) = false :=
      Bool.eq_false_iff.mpr fun hx => h ((isclose_zero_iff Ixy).mp hx)
    unfold thetaPOf
    rw [hz, hc]
    rfl
  · intro h hc
    have hz : isclose Ixy 0 (1/1000000000) (1/1000000) = false :=
      Bool.eq_false_iff.mpr fun hx => h ((isclose_zero_iff Ixy).mp hx)
    unfold thetaPOf
    rw [hz, hc]
    rfl
  · rcases hcase : thetaPOf Ix Iy Ixy with _ | _ | a
    · exact ⟨by norm_num, by norm_num⟩
    · exact ⟨by norm_num, by norm_num⟩
    · exact arctan_deg_mem a

/-- Witness for the amended C7. -/
theorem principal_angle_branches_witness :
    thetaPOf 5 7 0 = ThetaP.zero :=
  (principal_angle_branches 5 7 0).1 (by norm_num)

/-! C8. -/

theorem eraseIdx_concat_eq {α : Type} (xs : List α) (x : α) :
    (xs ++ [x]).eraseIdx xs.length = xs := by
  induction xs with
  | nil => rfl
  | cons a t ih => simpa using ih

theorem foldl_eraseIdx_concat {α : Type} (is : List ℕ) (xs : List α) (x : α)
    (hb : ∀ i ∈ is, i < xs.length) (hd : is.Pairwise (· > ·)) :
    is.foldl (fun acc i => acc.eraseIdx i) (xs ++ [x])
      = is.foldl (fun acc i => acc.eraseIdx i) xs ++ [x] := by
  induction is generalizing xs with
  | nil => rfl
  | cons i t ih =>
    simp only [List.foldl_cons]
    rw [List.eraseIdx_append_of_lt_length (hb i (List.mem_cons_self i t)) [x]]
    apply ih
    · intro j hj
      have hji : i > j := (List.pairwise_cons.mp hd).1 j hj
      have hi : i < xs.length := hb i (List.mem_cons_self i t)
      rw [List.length_eraseIdx_of_lt hi]
      omega
    · exact (List.pairwise_cons.mp hd).2

theorem enum_concat {α : Type} (xs : List α) (x : α) :
    (xs ++ [x]).enum = xs.enum ++ [(xs.length, x)] := by
  rw [List.enum_append]
  rfl

/-- Deleting the (ascending) filtered indices from largest to smallest — as
the source's reversed `del` loop does — removes exactly the entries at those
indices: the result is the subsequence of entries whose index fails the
predicate. -/
theorem foldl_eraseIdx_eq_filter {α : Type} (bad : ℕ → Bool) (l : List α) :
    (((List.range l.length).filter bad).reverse).foldl (fun acc i => acc.eraseIdx i) l
      = (l.enum.filter (fun q => ! bad q.1)).map Prod.snd := by
  induction l using List.reverseRecOn with
  | nil => rfl
  | append_singleton xs x ih =>
    have hlen : (xs ++ [x]).length = xs.length + 1 := by simp
    rw [hlen, List.range_succ, List.filter_append, List.reverse_append,
      List.foldl_append, enum_concat, List.filter_append]
    cases hbx : bad xs.length with
    | true =>
      simp only [List.filter_cons, List.filter_nil, hbx, if_true, Bool.not_true,
        List.reverse_cons, List.reverse_nil, List.nil_append, List.foldl_cons,
        List.foldl_nil, cond_true, cond_false]
      rw [eraseIdx_concat_eq]
      simpa using ih
    | false =>
      simp only [hbx, List.filter_cons, List.filter_nil, Bool.not_false,
        Bool.false_eq_true, if_false, ite_false, if_true, ite_true,
        eq_self_iff_true, List.reverse_nil, List.foldl_nil, List.nil_append]
      rw [foldl_eraseIdx_concat _ xs x
        (fun i hi => by
          have := List.mem_range.mp (List.mem_of_mem_filter (List.mem_reverse.mp hi))
          omega)
        (List.pairwise_reverse.mpr
          ((List.pairwise_lt_range xs.length).sublist (List.filter_sublist _)))]
      rw [ih]
      simp [hbx]

/-- Angles of the four opening corners about the fixed origin `(0, 0)`, for a
given `atan2` model. -/
def openingThetas (xo yo w d : ℚ) (atan2Q : ℚ → ℚ → ℚ) : List ℚ :=
  (openingPts xo yo w d).map (fun p => atan2Q p.2 p.1)

/-- C8: `add_opening` stores the four corner points, computes each corner's
polar angle by `atan2` about the fixed origin `(0,0)` (the column centroid,
not the section's own centroid), takes `theta_min`/`theta_max` as their
minimum and maximum, and deletes exactly those patches whose centroid angle
lies strictly inside `(theta_min, theta_max)`: every geometry column becomes
the subsequence of entries whose index falls outside the shadow.  The
4h-distance advisory (returned as the flag) never blocks the removal — the
resulting section is fully determined by the `atan2` angles alone, for every
model of `atan2` and `sqrt`. -/
theorem opening_removes_angular_shadow
    (S : PunchingShearSection) (xo yo w d : ℚ) (atan2Q : ℚ → ℚ → ℚ) (sqrtQ : ℚ → ℚ)
    (hsync : S.perimeter.sync) :
    (addOpening S xo yo w d atan2Q sqrtQ).1.openings
        = S.openings ++ [openingPts xo yo w d] ∧
    (addOpening S xo yo w d atan2Q sqrtQ).1.perimeter.x_centroid
        = keepOutsideShadow S.perimeter (pyMin (openingThetas xo yo w d atan2Q))
            (pyMax (openingThetas xo yo w d atan2Q)) atan2Q S.perimeter.x_centroid ∧
    (addOpening S xo yo w d atan2Q sqrtQ).1.perimeter.y_centroid
        = keepOutsideShadow S.perimeter (pyMin (openingThetas xo yo w d atan2Q))
            (pyMax (openingThetas xo yo w d atan2Q)) atan2Q S.perimeter.y_centroid ∧
    (addOpening S xo yo w d atan2Q sqrtQ).1.perimeter.x_start
        = keepOutsideShadow S.perimeter (pyMin (openingThetas xo yo w d atan2Q))
            (pyMax (openingThetas xo yo w d atan2Q)) atan2Q S.perimeter.x_start ∧
    (addOpening S xo yo w d atan2Q sqrtQ).1.perimeter.y_start
        = keepOutsideShadow S.perimeter (pyMin (openingThetas xo yo w d atan2Q))
            (pyMax (openingThetas xo yo w d atan2Q)) atan2Q S.perimeter.y_start ∧
    (addOpening S xo yo w d atan2Q sqrtQ).1.perimeter.x_end
        = keepOutsideShadow S.perimeter (pyMin (openingThetas xo yo w d atan2Q))
            (pyMax (openingThetas xo yo w d atan2Q)) atan2Q S.perimeter.x_end ∧
    (addOpening S xo yo w d atan2Q sqrtQ).1.perimeter.y_end
        = keepOutsideShadow S.perimeter (pyMin (openingThetas xo yo w d atan2Q))
            (pyMax (openingThetas xo yo w d atan2Q)) atan2Q S.perimeter.y_end ∧
    (addOpening S xo yo w d atan2Q sqrtQ).1.perimeter.depth
        = keepOutsideShadow S.perimeter (pyMin (openingThetas xo yo w d atan2Q))
            (pyMax (openingThetas xo yo w d atan2Q)) atan2Q S.perimeter.depth ∧
    (addOpening S xo yo w d atan2Q sqrtQ).1.perimeter.length
        = keepOutsideShadow S.perimeter (pyMin (openingThetas xo yo w d atan2Q))
            (pyMax (openingThetas xo yo w d atan2Q)) atan2Q S.perimeter.length ∧
    (addOpening S xo yo w d atan2Q sqrtQ).1.perimeter.area
        = keepOutsideShadow S.perimeter (pyMin (openingThetas xo yo w d atan2Q))
            (pyMax (openingThetas xo yo w d atan2Q)) atan2Q S.perimeter.area := by
  obtain ⟨h1, h2, h3, h4, h5, h6, h7, h8⟩ := hsync
  unfold addOpening keepOutsideShadow openingThetas
  dsimp only
  refine ⟨rfl, ?_, ?_, ?_, ?_, ?_, ?_, ?_, ?_, ?_⟩
  · exact foldl_eraseIdx_eq_filter _ _
  · rw [← h1]; exact foldl_eraseIdx_eq_filter _ _
  · rw [← h2]; exact foldl_eraseIdx_eq_filter _ _
  · rw [← h3]; exact foldl_eraseIdx_eq_filter _ _
  · rw [← h4]; exact foldl_eraseIdx_eq_filter _ _
  · rw [← h5]; exact foldl_eraseIdx_eq_filter _ _
  · rw [← h6]; exact foldl_eraseIdx_eq_filter _ _
  · rw [← h7]; exact foldl_eraseIdx_eq_filter _ _
  · rw [← h8]; exact foldl_eraseIdx_eq_filter _ _

/-- Witness for C8 at a concrete section and a concrete `atan2` model. -/
theorem opening_removes_angular_shadow_witness :
    (addOpening sq4 10 (-10) 20 20 (fun y x => y - x) (fun q => q)).1.perimeter.x_centroid
      = keepOutsideShadow sq4.perimeter
          (pyMin (openingThetas 10 (-10) 20 20 (fun y x => y - x)))
          (pyMax (openingThetas 10 (-10) 20 20 (fun y x => y - x)))
          (fun y x => y - x) sq4.perimeter.x_centroid :=
  (opening_removes_angular_shadow sq4 10 (-10) 20 20 (fun y x => y - x) (fun q => q)
    (by decide)).2.1

/-! C9. -/

/-- C9 (code defect): `solve` never clears the stored result columns — it only
appends to them.  Two consecutive `solve` calls on the 4-patch interior square
leave every result column with 8 entries against 4 geometry entries, not one
entry per patch; the source's closing `pd.DataFrame(self.perimeter)` would
then raise `ValueError` for the length mismatch. -/
theorem second_solve_duplicates_result_columns :
    ((solve sq4 (-100) 0 0 none none true true oneModel).toOption.bind
        (fun o1 => (solve o1.sec (-100) 0 0 none none true true oneModel).toOption)).map
        (fun o2 => (o2.sec.perimeter.x_centroid.length, o2.sec.perimeter.v_total.length))
      = some (4, 8) := by decide

end Wthisj
